import Mathlib

/-!
Shallow embedding of the lilylink audio-client library (TypeScript) for
checking its natural-language specification.

Conventions of the embedding:
* A JS object identity (tracks are compared by reference in the queue's
  `Set<LilyTrack>`) is modelled by a structure with a numeric id and
  decidable equality.
* The queue's doubly linked node list is modelled by the list of node
  values from head to tail; `nodeCount` is maintained by the source in
  lock-step with the number of nodes, so it is `items.length` here.
* Throwing methods return `Except String`; methods that return booleans
  keep those booleans.
* `Math.random()`-driven choices are passed in as an explicit list of
  natural numbers (each clamped into the range the source draws from).
-/

namespace LilyLink

/-- A track object; `tid` stands for the JS object identity by which the
queue's membership `Set` compares tracks. -/
structure LilyTrack where
  tid : Nat
deriving DecidableEq, Repr

namespace LilyQueue

/-- State of `LilyQueue` (the variant with a configurable start index,
src/unnamed/part_003): `items` is the head-to-tail sequence of linked-list
node values, `trackSet` the contents of the auxiliary `tracks: Set<LilyTrack>`
membership index (insertion order, no duplicates), `startIndex` the clamped
configured start index. -/
structure Queue where
  items : List LilyTrack
  trackSet : List LilyTrack
  startIndex : Nat
deriving DecidableEq, Repr

/-- `constructor(queueStartIndex = 0)`: `this.startIndex = Math.max(0, queueStartIndex)`. -/
def mk (queueStartIndex : Int) : Queue :=
  { items := [], trackSet := [], startIndex := (max 0 queueStartIndex).toNat }

/-- JS `Set.add`: no-op when the element is already present. -/
def setInsert (s : List LilyTrack) (t : LilyTrack) : List LilyTrack :=
  if t ∈ s then s else s ++ [t]

/-- JS `Set.delete`: removes the element if present. -/
def setDelete (s : List LilyTrack) (t : LilyTrack) : List LilyTrack :=
  s.erase t

/-- `add(track)`: appends a node at the tail, adds the track to the
membership set, increments `nodeCount`, returns true. -/
def add (q : Queue) (t : LilyTrack) : Queue :=
  { q with items := q.items ++ [t], trackSet := setInsert q.trackSet t }

/-- `get size()`: returns `nodeCount`. -/
def size (q : Queue) : Nat := q.items.length

/-- `get(position)`: subtracts `startIndex`, bounds-checks against
`nodeCount`, then walks `adjustedPosition` nodes from the head.
The walk's `current!.value` cannot miss once the bounds check passed,
so the `getD` default is never used. -/
def get (q : Queue) (position : Int) : Except String LilyTrack :=
  let adjustedPosition : Int := position - (q.startIndex : Int)
  if adjustedPosition < 0 ∨ (q.items.length : Int) ≤ adjustedPosition then
    .error "Position out of bounds"
  else
    .ok (q.items.getD adjustedPosition.toNat ⟨0⟩)

/-- `has(track)`: membership in the auxiliary `tracks` set. -/
def has (q : Queue) (t : LilyTrack) : Bool := t ∈ q.trackSet

/-- `remove(position)`: same index adjustment and bounds check as `get`
(returning false instead of throwing), then unlinks the node and deletes
its value from the membership set. -/
def remove (q : Queue) (position : Int) : Bool × Queue :=
  let adjustedPosition : Int := position - (q.startIndex : Int)
  if adjustedPosition < 0 ∨ (q.items.length : Int) ≤ adjustedPosition then
    (false, q)
  else
    let victim := q.items.getD adjustedPosition.toNat ⟨0⟩
    (true, { q with items := q.items.eraseIdx adjustedPosition.toNat,
                    trackSet := setDelete q.trackSet victim })

/-- `shift()`: throws on an empty queue, otherwise unlinks the head node
and deletes its value from the membership set. -/
def shift (q : Queue) : Except String (LilyTrack × Queue) :=
  match q.items with
  | [] => .error "Queue is empty"
  | t :: rest => .ok (t, { q with items := rest, trackSet := setDelete q.trackSet t })

/-- `unshift(track)`: inserts a node at the head. -/
def unshift (q : Queue) (t : LilyTrack) : Queue :=
  { q with items := t :: q.items, trackSet := setInsert q.trackSet t }

/-- `clear()`: resets list, set and count. -/
def clear (q : Queue) : Queue :=
  { q with items := [], trackSet := [] }

/-- One content swap of the Fisher-Yates loop: exchanges the `value`
fields of the nodes at positions `i` and `j` (the links are untouched). -/
def swapAt {α : Type} (l : List α) (i j : Nat) : List α :=
  match l[i]?, l[j]? with
  | some a, some b => (l.set i b).set j a
  | _, _ => l

/-- The `for (let i = positions.length - 1; i > 0; i--)` loop of
`shuffle()`: at each `i` the source draws `j = Math.floor(Math.random() * (i + 1))`,
which always lands in `[0, i]`; the draw is supplied by `rand` and clamped
into that range. -/
def fyGo {α : Type} : List α → Nat → List Nat → List α
  | l, 0, _ => l
  | l, i + 1, rand => fyGo (swapAt l (i + 1) (min (rand.headD 0) (i + 1))) i rand.tail

/-- The full Fisher-Yates pass over the node contents. -/
def fisherYates {α : Type} (l : List α) (rand : List Nat) : List α :=
  fyGo l (l.length - 1) rand

/-- `shuffle()` of the start-index variant (src/unnamed/part_003): throws
when `nodeCount < 2`, otherwise permutes node contents in place. -/
def shuffle (q : Queue) (rand : List Nat) : Except String Queue :=
  if q.items.length < 2 then
    .error "There must be at least 2 songs in queue!"
  else
    .ok { q with items := fisherYates q.items rand }

/-- `shuffle()` of the base variant (src/src/models/queue.ts): returns
true without mutating anything when `nodeCount <= 1`, otherwise permutes
node contents in place (always returns true). -/
def shuffleBase (q : Queue) (rand : List Nat) : Queue :=
  if q.items.length ≤ 1 then q
  else { q with items := fisherYates q.items rand }

theorem set_cons_perm {α : Type} :
    ∀ (l : List α) (j : Nat) (a b : α), l[j]? = some b →
      (b :: l.set j a).Perm (a :: l) := by
  intro l
  induction l with
  | nil => intro j a b h; simp at h
  | cons x t ih =>
    intro j a b h
    cases j with
    | zero =>
      have hx : x = b := by simpa using h
      subst hx
      exact List.Perm.swap a x t
    | succ m =>
      have h' : t[m]? = some b := by simpa using h
      have hp := ih m a b h'
      show (b :: x :: t.set m a).Perm (a :: x :: t)
      exact (List.Perm.swap x b (t.set m a)).trans
        ((hp.cons x).trans (List.Perm.swap a x t))

theorem swapAt_perm {α : Type} :
    ∀ (l : List α) (i j : Nat), (swapAt l i j).Perm l := by
  intro l
  induction l with
  | nil => intro i j; simp [swapAt]
  | cons x t ih =>
    intro i j
    cases i with
    | zero =>
      cases j with
      | zero => simp [swapAt, List.set]
      | succ m =>
        cases h : t[m]? with
        | none => simp [swapAt, h]
        | some b =>
          have hp := set_cons_perm t m x b h
          simpa [swapAt, h, List.set] using hp
    | succ n =>
      cases hn : t[n]? with
      | none => simp [swapAt, hn]
      | some a =>
        cases j with
        | zero =>
          have hp := set_cons_perm t n x a hn
          simpa [swapAt, hn, List.set] using hp
        | succ m =>
          cases hm : t[m]? with
          | none => simp [swapAt, hn, hm]
          | some b =>
            have hp := ih n m
            simp only [swapAt, hn, hm] at hp
            simpa [swapAt, hn, hm, List.set] using List.Perm.cons x hp

theorem fyGo_perm {α : Type} :
    ∀ (i : Nat) (rand : List Nat) (l : List α), (fyGo l i rand).Perm l := by
  intro i
  induction i with
  | zero => intro rand l; simp [fyGo]
  | succ n ih =>
    intro rand l
    exact (ih rand.tail _).trans (swapAt_perm l (n + 1) _)

theorem fisherYates_perm {α : Type} (l : List α) (rand : List Nat) :
    (fisherYates l rand).Perm l :=
  fyGo_perm (l.length - 1) rand l

end LilyQueue

namespace LilyPlayer

/-- `PlayerLoop` enum: OFF = 0, TRACK = 1, QUEUE = 2. -/
inductive PlayerLoop
  | OFF
  | TRACK
  | QUEUE
deriving DecidableEq, Repr

/-- Observable effects of player/node-event code: notifications emitted on
the manager, REST requests issued through the bound node, and the voice
payload handed to the injected sink. `autoplayRun` marks entry into the
source-specific autoplay collaborator (its network traffic is outside
this model). -/
inductive Eff
  | trackEnd
  | queueEnd
  | playerTriggeredPlay
  | playerDisconnected
  | playerDestroyed
  | playerChangedVolume
  | voicePayload
  | restUpdate
  | autoplayRun
deriving DecidableEq, Repr

/-- State of a `LilyPlayer` (variant with filters, first class of
src/unnamed/part_002). `pendingFilterSync` models
`LilyFilters.updateTimeout != null` (a scheduled debounced filter sync);
`destroyed` models removal from the player registry. -/
structure PlayerSt where
  connected : Bool
  playing : Bool
  paused : Bool
  volume : Int
  loop : PlayerLoop
  current : Option LilyTrack
  previous : List LilyTrack
  autoPlay : Bool
  autoLeave : Bool
  queue : LilyQueue.Queue
  pendingFilterSync : Bool
  destroyed : Bool
deriving DecidableEq, Repr

/-- `play()`: returns false on an empty queue; otherwise dequeues the
head, submits it with the current volume over REST, marks playing and
emits `playerTriggeredPlay`. The `shift` error branch is unreachable
because the size was just checked. -/
def play (p : PlayerSt) : PlayerSt × List Eff × Bool :=
  if LilyQueue.size p.queue = 0 then (p, [], false)
  else
    match LilyQueue.shift p.queue with
    | .error _ => (p, [], false)
    | .ok (t, q') =>
      ({ p with current := some t, playing := true, queue := q' },
       [Eff.restUpdate, Eff.playerTriggeredPlay], true)

/-- `disconnect()`: sends the voice payload with a null channel, clears
the connected flag and emits `playerDisconnected`. -/
def disconnect (p : PlayerSt) : PlayerSt × List Eff :=
  ({ p with connected := false }, [Eff.voicePayload, Eff.playerDisconnected])

/-- `destroy()`: disconnects if connected, clears the queue, removes the
player from the registry, emits `playerDestroyed`. It does NOT invoke
`LilyFilters.dispose`, so `pendingFilterSync` is left untouched. -/
def destroy (p : PlayerSt) : PlayerSt × List Eff :=
  let (p1, effs) := if p.connected then disconnect p else (p, [])
  ({ p1 with queue := LilyQueue.clear p1.queue, destroyed := true },
   effs ++ [Eff.playerDestroyed])

/-- `LilyFilters.setFilter`: after updating local state it (re)schedules
the debounced remote sync (`updateTimeout = setTimeout(...)`). Only the
timer wiring is modelled. -/
def filtersSetFilter (p : PlayerSt) : PlayerSt :=
  { p with pendingFilterSync := true }

/-- `LilyFilters.dispose()`: clears a scheduled debounced sync
(`clearTimeout(updateTimeout); updateTimeout = null`). -/
def filtersDispose (p : PlayerSt) : PlayerSt :=
  { p with pendingFilterSync := false }

/-- `LilyNode.handleFailedTrack`: play the next track if the queue is
non-empty, otherwise clear the queue; no notification is emitted here. -/
def handleFailedTrack (p : PlayerSt) : PlayerSt × List Eff :=
  if LilyQueue.size p.queue ≠ 0 then
    let (p', effs, _) := play p
    (p', effs)
  else
    ({ p with queue := LilyQueue.clear p.queue }, [])

/-- `LilyNode.handleTrackEnd`: clears playing/paused, archives the ended
track into `previous` (append or replace per `previousInArray`), emits
`trackEnd`, then dispatches on the end reason exactly as the source does.
The archived object merges the payload track with `current`'s encoded
blob; tracks are atomic here, so the payload track stands for it.
`handleQueueLoop` resets the current track's position/time (not part of
the atomic track model), re-enqueues it at the tail and plays. -/
def handleTrackEnd (previousInArray : Bool) (p : PlayerSt) (reason : String)
    (payloadTrack : LilyTrack) : PlayerSt × List Eff :=
  let p1 := { p with playing := false, paused := false }
  let p2 :=
    if previousInArray then { p1 with previous := p1.previous ++ [payloadTrack] }
    else { p1 with previous := [payloadTrack] }
  let effs := [Eff.trackEnd]
  if reason = "loadFailed" ∨ reason = "cleanup" then
    let (p3, e3) := handleFailedTrack p2
    (p3, effs ++ e3)
  else if reason = "replaced" then
    (p2, effs)
  else if p2.loop = PlayerLoop.TRACK then
    (p2, effs ++ [Eff.restUpdate])
  else if p2.loop = PlayerLoop.QUEUE ∧ p2.current ≠ none then
    match p2.current with
    | some c =>
      let p3 := { p2 with queue := LilyQueue.add p2.queue c }
      let (p4, e4, _) := play p3
      (p4, effs ++ e4)
    | none => (p2, effs)
  else if LilyQueue.size p2.queue ≠ 0 then
    let (p3, e3, _) := play p2
    (p3, effs ++ e3)
  else if p2.autoPlay then
    (p2, effs ++ [Eff.autoplayRun])
  else if LilyQueue.size p2.queue = 0 then
    let p3 := { p2 with current := none }
    if p3.autoLeave then
      let (p4, e4) := destroy p3
      (p4, (effs ++ [Eff.queueEnd]) ++ e4)
    else
      (p3, effs ++ [Eff.queueEnd])
  else
    (p2, effs)

/-- `setVolume(volume)` of the filters variant (src/unnamed/part_002,
first class): validates with `z.number().min(1).max(100)` before any
side effect; on success it updates the field, issues the REST update and
emits `playerChangedVolume`. -/
def setVolumeA (p : PlayerSt) (volume : Int) : Except String (PlayerSt × List Eff) :=
  if volume < 1 ∨ 100 < volume then .error "volume is invalid"
  else .ok ({ p with volume := volume }, [Eff.restUpdate, Eff.playerChangedVolume])

/-- `setVolume(volume)` of the second variant (src/unnamed/part_002,
second class): same shape with `z.number().min(0).max(100)`. -/
def setVolumeB (p : PlayerSt) (volume : Int) : Except String (PlayerSt × List Eff) :=
  if volume < 0 ∨ 100 < volume then .error "volume is invalid"
  else .ok ({ p with volume := volume }, [Eff.restUpdate, Eff.playerChangedVolume])

/-- Manager options consumed by the player constructor. -/
structure ManagerOptions where
  previousInArray : Bool
  queueStartIndex : Option Int
deriving DecidableEq, Repr

/-- The per-player slice of `PlayerConfig` that the constructor coalesces. -/
structure PlayerConfig where
  volume : Option Int
  loop : Option PlayerLoop
  autoPlay : Option Bool
  autoLeave : Option Bool
deriving DecidableEq, Repr

/-- JS `x || d` on an optional number: both `undefined` and `0` are falsy. -/
def jsOrInt (v : Option Int) (dflt : Int) : Int :=
  match v with
  | some x => if x = 0 then dflt else x
  | none => dflt

/-- The `LilyPlayer` constructor (filters variant): note
`this.volume = config.volume || 100`, which coalesces a configured `0`
to the default `100`. `config.loop || OFF`, `config.autoPlay || false`
and `config.autoLeave || false` coalesce identically (`OFF` is the falsy
member of its enum, so `getD` is equivalent there). -/
def mkPlayer (opts : ManagerOptions) (config : PlayerConfig) : PlayerSt :=
  { connected := false
    playing := false
    paused := false
    volume := jsOrInt config.volume 100
    loop := config.loop.getD PlayerLoop.OFF
    current := none
    previous := []
    autoPlay := config.autoPlay.getD false
    autoLeave := config.autoLeave.getD false
    queue := LilyQueue.mk (opts.queueStartIndex.getD 0)
    pendingFilterSync := false
    destroyed := false }

/-- `LilyPlayerManager.create`'s volume validation:
`z.number().min(0).max(100).optional().default(50)` — `0` passes. -/
def createVolumeValid (v : Option Int) : Bool :=
  match v with
  | none => true
  | some x => decide (0 ≤ x ∧ x ≤ 100)

end LilyPlayer

namespace LilyNode

/-- `LilyNodeState` enum. -/
inductive NodeState
  | CONNECTING
  | CONNECTED
  | DISCONNECTING
  | DISCONNECTED
deriving DecidableEq, Repr

/-- Node-lifecycle notifications emitted on the manager. -/
inductive NodeEff
  | nodeReconnect
  | nodeDisconnect
  | nodeConnected
deriving DecidableEq, Repr

/-- State of a `LilyNode`'s connection machinery. `pendingReconnect`
models `reconnectTimeout` being scheduled and not yet fired or cleared;
`socketActive` models a non-null socket with the four handlers bound. -/
structure NodeSt where
  state : NodeState
  reconnectAttempts : Nat
  retryAmount : Nat
  pendingReconnect : Bool
  socketActive : Bool
deriving DecidableEq, Repr

/-- `reconnect()`: schedules the retry timer (whose body increments the
attempt counter and reconnects) and emits `nodeReconnect` immediately. -/
def reconnect (n : NodeSt) : NodeSt × List NodeEff :=
  ({ n with pendingReconnect := true }, [NodeEff.nodeReconnect])

/-- `close(code, reason)`: demotes CONNECTED to DISCONNECTED, cleans up
the socket, then either schedules a reconnect (while
`retryAmount > reconnectAttempts`) or settles into DISCONNECTED with a
null socket; finally emits `nodeDisconnect`. -/
def close (n : NodeSt) : NodeSt × List NodeEff :=
  let n1 :=
    if n.state = NodeState.CONNECTED then { n with state := NodeState.DISCONNECTED } else n
  let n2 := { n1 with socketActive := false }
  if n2.reconnectAttempts < n2.retryAmount then
    let (n3, effs) := reconnect n2
    (n3, effs ++ [NodeEff.nodeDisconnect])
  else
    ({ n2 with state := NodeState.DISCONNECTED }, [NodeEff.nodeDisconnect])

/-- `open()` handler: clears a pending reconnect timer, sets CONNECTED,
emits `nodeConnected`. -/
def openHandler (n : NodeSt) : NodeSt × List NodeEff :=
  ({ n with pendingReconnect := false, state := NodeState.CONNECTED },
   [NodeEff.nodeConnected])

/-- The reconnect timer firing: `reconnectAttempts++; connect()` (the
timer has run, a fresh socket is created with handlers bound). -/
def timerFire (n : NodeSt) : NodeSt :=
  { n with pendingReconnect := false,
           reconnectAttempts := n.reconnectAttempts + 1,
           socketActive := true }

/-- `destroy()`: `socket?.close(); state = DISCONNECTED`. The pending
reconnect timer is NOT cleared (only `open()` clears it). -/
def destroy (n : NodeSt) : NodeSt × List NodeEff :=
  ({ n with state := NodeState.DISCONNECTED }, [])

/-- Environment events driving one node's connection machinery. -/
inductive NodeEv
  | socketClose
  | timerFires
  | socketOpen
  | destroyCall
deriving DecidableEq, Repr

/-- One step: socket events only fire while handlers are bound, the timer
only fires while scheduled; `destroy` can always be called. -/
def step (n : NodeSt) : NodeEv → NodeSt × List NodeEff
  | .socketClose => if n.socketActive then close n else (n, [])
  | .timerFires => if n.pendingReconnect then (timerFire n, []) else (n, [])
  | .socketOpen => if n.socketActive then openHandler n else (n, [])
  | .destroyCall => destroy n

/-- Run a sequence of events, accumulating the emitted notifications. -/
def run (n : NodeSt) : List NodeEv → NodeSt × List NodeEff
  | [] => (n, [])
  | e :: es =>
    let (n1, effs1) := step n e
    let (n2, effs2) := run n1 es
    (n2, effs1 ++ effs2)

end LilyNode

namespace CacheModel

/-- `CacheOptions`: an optional TTL (ms) and the always-revalidate flag. -/
structure CacheOptions where
  ttl : Option Nat
  revalidate : Bool
deriving DecidableEq, Repr

/-- `CacheEntry`: cached values are modelled as integers standing for
arbitrary JS values, with `0` standing for a falsy value. -/
structure CacheEntry where
  value : Int
  expires : Option Nat
  createdAt : Nat
deriving DecidableEq, Repr

/-- Cache notifications. -/
inductive CacheEff
  | cacheExpired (key : String)
  | cacheSet (key : String)
  | cacheDelete (key : String)
deriving DecidableEq, Repr

/-- `isExpired`: `if (!entry.expires) return false; return Date.now() > entry.expires`
— a numeric `0` expiry is falsy, and the comparison is strict. -/
def isExpired (entry : CacheEntry) (now : Nat) : Bool :=
  match entry.expires with
  | none => false
  | some e => if e = 0 then false else decide (e < now)

/-- `createEntry`: `ttl = options?.ttl ?? this.options.ttl`, then
`expires: ttl ? Date.now() + ttl : undefined` (a `0` TTL is falsy and
yields no expiry). -/
def createEntry (opts : CacheOptions) (value : Int) (callOpts : Option CacheOptions)
    (now : Nat) : CacheEntry :=
  let ttl : Option Nat :=
    (match callOpts with
     | some o => o.ttl
     | none => none).orElse (fun _ => opts.ttl)
  { value := value
    expires :=
      match ttl with
      | some t => if t = 0 then none else some (now + t)
      | none => none
    createdAt := now }

/-- The `MapAdapter`'s backing `Map`, as an association list in insertion
order, plus the adapter options. -/
structure MapSt where
  cache : List (String × CacheEntry)
  opts : CacheOptions
deriving DecidableEq, Repr

/-- JS `Map.set`: replaces in place if the key exists, appends otherwise. -/
def alSet : List (String × CacheEntry) → String → CacheEntry → List (String × CacheEntry)
  | [], k, e => [(k, e)]
  | (k', e') :: rest, k, e =>
    if k' = k then (k, e) :: rest else (k', e') :: alSet rest k e

/-- JS `Map.delete`. -/
def alDelete (l : List (String × CacheEntry)) (k : String) : List (String × CacheEntry) :=
  l.filter (fun p => p.1 != k)

/-- `MapAdapter.get`: a present but expired entry is evicted lazily and
`cacheExpired` is emitted at that moment. -/
def mget (s : MapSt) (key : String) (now : Nat) :
    Option Int × MapSt × List CacheEff :=
  match s.cache.lookup key with
  | none => (none, s, [])
  | some entry =>
    if isExpired entry now then
      (none, { s with cache := alDelete s.cache key }, [CacheEff.cacheExpired key])
    else
      (some entry.value, s, [])

/-- `MapAdapter.set`. -/
def mset (s : MapSt) (key : String) (value : Int) (callOpts : Option CacheOptions)
    (now : Nat) : MapSt × List CacheEff :=
  ({ s with cache := alSet s.cache key (createEntry s.opts value callOpts now) },
   [CacheEff.cacheSet key])

/-- Result of one `revalidate` call; `producerCalls` counts invocations of
the supplied producer (which is modelled by the pure value it resolves to). -/
structure RevalResult where
  value : Int
  state : MapSt
  effs : List CacheEff
  producerCalls : Nat
deriving DecidableEq, Repr

/-- JS truthiness of a cached value. -/
def truthy (v : Int) : Bool := v != 0

/-- `CacheAdapter.revalidate(key, fn)`:
`const existing = await this.get(key); if (existing && !this.options.revalidate) return existing;`
then invoke the producer, store and return the fresh value. Note the
guard is truthiness of the value, not presence. -/
def revalidate (s : MapSt) (key : String) (producerValue : Int) (now : Nat) :
    RevalResult :=
  let (existing, s1, e1) := mget s key now
  match existing with
  | some v =>
    if truthy v && !s1.opts.revalidate then
      { value := v, state := s1, effs := e1, producerCalls := 0 }
    else
      let (s2, e2) := mset s1 key producerValue none now
      { value := producerValue, state := s2, effs := e1 ++ e2, producerCalls := 1 }
  | none =>
    let (s2, e2) := mset s1 key producerValue none now
    { value := producerValue, state := s2, effs := e1 ++ e2, producerCalls := 1 }

end CacheModel

namespace LilyNodeManager

/-- Raw `LilyNodeOptions` handed to `add`. -/
structure NodeOptions where
  host : String
  id : Option Int
  identifier : Option String
  port : Int
  password : Option String
  retryDelay : Option Int
  retryAmount : Option Int
  regions : Option (List String)
  secure : Option Bool
  sessionId : Option String
deriving DecidableEq, Repr

/-- Output of `nodeOptionsSchema.parse` with its defaults applied. -/
structure ValidatedNodeOptions where
  host : String
  identifier : Option String
  port : Int
  retryDelay : Int
  retryAmount : Int
  secure : Bool
deriving DecidableEq, Repr

/-- `validateNode`: the zod schema — `host` non-empty, `id` positive,
`identifier`/`password`/`sessionId` non-empty when present, `port` in
[1, 65535], `retryDelay` in [100, 60000] defaulting to 5000,
`retryAmount` in [1, 10] defaulting to 3, `regions` entries non-empty,
`secure` defaulting to false. Error strings stand in for the formatted
zod issue lists. -/
def validateNode (o : NodeOptions) : Except String ValidatedNodeOptions :=
  if o.host.length < 1 then
    .error "Invalid node configuration: host"
  else if (match o.id with | some i => decide (i < 1) | none => false) then
    .error "Invalid node configuration: id"
  else if (match o.identifier with | some s => decide (s.length < 1) | none => false) then
    .error "Invalid node configuration: identifier"
  else if o.port < 1 ∨ 65535 < o.port then
    .error "Invalid node configuration: port"
  else if (match o.password with | some s => decide (s.length < 1) | none => false) then
    .error "Invalid node configuration: password"
  else if (match o.retryDelay with | some d => decide (d < 100 ∨ 60000 < d) | none => false) then
    .error "Invalid node configuration: retryDelay"
  else if (match o.retryAmount with | some a => decide (a < 1 ∨ 10 < a) | none => false) then
    .error "Invalid node configuration: retryAmount"
  else if (match o.regions with | some rs => rs.any (fun s => decide (s.length < 1)) | none => false) then
    .error "Invalid node configuration: regions"
  else if (match o.sessionId with | some s => decide (s.length < 1) | none => false) then
    .error "Invalid node configuration: sessionId"
  else
    .ok { host := o.host
          identifier := o.identifier
          port := o.port
          retryDelay := o.retryDelay.getD 5000
          retryAmount := o.retryAmount.getD 3
          secure := o.secure.getD false }

/-- The only registry mutation `add` can make. -/
inductive ManagerEff
  | nodeCreate
deriving DecidableEq, Repr

/-- `LilyNodeManager.add`: capacity check, schema validation, duplicate
check on `identifier ?? host`, then insert and emit `nodeCreate`. The
registry `cache: Map<identifier, node>` is modelled by its key list in
insertion order. -/
def addNode (cache : List String) (options : NodeOptions) :
    Except String (List String × List ManagerEff) :=
  if 100 ≤ cache.length then
    .error "Cannot add more nodes. Maximum capacity (100) reached"
  else
    match validateNode options with
    | .error e => .error e
    | .ok v =>
      let identifier := v.identifier.getD v.host
      if identifier ∈ cache then
        .error ("Node with identifier " ++ identifier ++ " already exists")
      else
        .ok (cache ++ [identifier], [ManagerEff.nodeCreate])

end LilyNodeManager

/-! ## Claim theorems -/

section Claims

open LilyQueue LilyPlayer LilyNode CacheModel LilyNodeManager

/-- The spec's concrete `startIndex=1` queue: `add(t1); add(t2)` with
`t1 = ⟨1⟩`, `t2 = ⟨2⟩`. -/
def qC3 : Queue := LilyQueue.add (LilyQueue.add (LilyQueue.mk 1) ⟨1⟩) ⟨2⟩

/-- C3: For every queue with configured start index `s` holding `n`
tracks, `get(pos)` returns the track at offset `pos - s` from the head
when `pos ∈ [s, s+n)` and throws the out-of-bounds error for every other
`pos`; in particular with `startIndex=1` after `add(t1); add(t2)`,
`get(1)=t1`, `get(2)=t2`, and `get(0)`, `get(3)` both fail. -/
theorem claim_C3 (q : Queue) (pos : Int) :
    ((q.startIndex : Int) ≤ pos ∧ pos < (q.startIndex : Int) + (LilyQueue.size q : Int) →
      ∃ t, q.items[(pos - (q.startIndex : Int)).toNat]? = some t ∧
        LilyQueue.get q pos = .ok t) ∧
    ((pos < (q.startIndex : Int) ∨ (q.startIndex : Int) + (LilyQueue.size q : Int) ≤ pos) →
      LilyQueue.get q pos = .error "Position out of bounds") ∧
    (LilyQueue.get qC3 1 = .ok ⟨1⟩ ∧ LilyQueue.get qC3 2 = .ok ⟨2⟩ ∧
     LilyQueue.get qC3 0 = .error "Position out of bounds" ∧
     LilyQueue.get qC3 3 = .error "Position out of bounds") := by
  refine ⟨?_, ?_, rfl, rfl, rfl, rfl⟩
  · rintro ⟨h1, h2⟩
    have hnn : 0 ≤ pos - (q.startIndex : Int) := by omega
    have hlt : pos - (q.startIndex : Int) < (q.items.length : Int) := by
      have : (LilyQueue.size q : Int) = (q.items.length : Int) := rfl
      omega
    have hn : (pos - (q.startIndex : Int)).toNat < q.items.length := by omega
    refine ⟨q.items[(pos - (q.startIndex : Int)).toNat], List.getElem?_eq_getElem hn, ?_⟩
    show (if pos - (q.startIndex : Int) < 0 ∨ (q.items.length : Int) ≤ pos - (q.startIndex : Int)
          then (Except.error "Position out of bounds" : Except String LilyTrack)
          else .ok (q.items.getD (pos - (q.startIndex : Int)).toNat ⟨0⟩)) = _
    rw [if_neg (by omega)]
    congr 1
    rw [List.getD_eq_getElem?_getD, List.getElem?_eq_getElem hn]
    rfl
  · intro h
    show (if pos - (q.startIndex : Int) < 0 ∨ (q.items.length : Int) ≤ pos - (q.startIndex : Int)
          then (Except.error "Position out of bounds" : Except String LilyTrack)
          else .ok (q.items.getD (pos - (q.startIndex : Int)).toNat ⟨0⟩)) = _
    rw [if_pos]
    have : (LilyQueue.size q : Int) = (q.items.length : Int) := rfl
    omega

/-- Closed instantiation of `claim_C3` at the spec's concrete queue:
position 1 is in range and resolves to the head; position 0 is out of
range and fails. -/
theorem claim_C3_witness :
    (∃ t, qC3.items[((1 : Int) - (qC3.startIndex : Int)).toNat]? = some t ∧
       LilyQueue.get qC3 1 = .ok t) ∧
    LilyQueue.get qC3 0 = .error "Position out of bounds" :=
  ⟨(claim_C3 qC3 1).1 (by decide), (claim_C3 qC3 0).2.1 (by decide)⟩

/-- C5: `shuffle()` with fewer than 2 tracks fails (start-index variant
throws; base variant no-ops) without mutating the queue; with 2 or more
tracks it permutes only the node contents, leaving the track multiset,
the size, the membership index and the start index unchanged. -/
theorem claim_C5 (q : Queue) (rand : List Nat) :
    (LilyQueue.size q < 2 →
      LilyQueue.shuffle q rand = .error "There must be at least 2 songs in queue!" ∧
      shuffleBase q rand = q) ∧
    (2 ≤ LilyQueue.size q →
      ∃ q', LilyQueue.shuffle q rand = .ok q' ∧
        q'.items.Perm q.items ∧
        LilyQueue.size q' = LilyQueue.size q ∧
        q'.trackSet = q.trackSet ∧
        q'.startIndex = q.startIndex ∧
        shuffleBase q rand = q') := by
  constructor
  · intro h
    have h' : q.items.length < 2 := h
    constructor
    · show (if q.items.length < 2 then _ else _) = _
      rw [if_pos h']
    · show (if q.items.length ≤ 1 then q else _) = q
      rw [if_pos (Nat.lt_succ_iff.mp h')]
  · intro h
    have h' : 2 ≤ q.items.length := h
    refine ⟨{ q with items := fisherYates q.items rand }, ?_, ?_, ?_, rfl, rfl, ?_⟩
    · show (if q.items.length < 2 then _ else _) = _
      rw [if_neg (by omega)]
    · exact fisherYates_perm q.items rand
    · show (fisherYates q.items rand).length = q.items.length
      exact (fisherYates_perm q.items rand).length_eq
    · show (if q.items.length ≤ 1 then q else _) = _
      rw [if_neg (by omega)]

/-- Closed instantiation of `claim_C5`: a one-track queue is rejected
untouched; a two-track queue is permuted with multiset, size, membership
set and start index preserved. -/
theorem claim_C5_witness :
    (LilyQueue.shuffle (LilyQueue.add (LilyQueue.mk 0) ⟨1⟩) [] =
        .error "There must be at least 2 songs in queue!" ∧
      shuffleBase (LilyQueue.add (LilyQueue.mk 0) ⟨1⟩) [] =
        LilyQueue.add (LilyQueue.mk 0) ⟨1⟩) ∧
    (∃ q', LilyQueue.shuffle qC3 [0] = .ok q' ∧
      q'.items.Perm qC3.items ∧
      LilyQueue.size q' = LilyQueue.size qC3 ∧
      q'.trackSet = qC3.trackSet ∧
      q'.startIndex = qC3.startIndex ∧
      shuffleBase qC3 [0] = q') :=
  ⟨(claim_C5 (LilyQueue.add (LilyQueue.mk 0) ⟨1⟩) []).1 (by decide),
   (claim_C5 qC3 [0]).2 (by decide)⟩

/-- C9 (implicit): the membership index is keyed by track identity, so
after `add(t); add(t); shift()` the queue still holds one copy of `t`
(`size = 1`, `t` among the node values) yet `has(t)` is false — the
index disagrees with the linked-list contents for duplicates. -/
theorem claim_C9 (t : LilyTrack) :
    ∃ q', LilyQueue.shift (LilyQueue.add (LilyQueue.add (LilyQueue.mk 0) t) t) = .ok (t, q') ∧
      LilyQueue.has q' t = false ∧
      LilyQueue.size q' = 1 ∧
      t ∈ q'.items := by
  refine ⟨⟨[t], [], 0⟩, ?_, ?_, rfl, by simp⟩
  · show LilyQueue.shift ⟨[t, t], setInsert (setInsert [] t) t, 0⟩ = _
    have h1 : setInsert ([] : List LilyTrack) t = [t] := rfl
    have h2 : setInsert [t] t = [t] := by simp [setInsert]
    rw [h1, h2]
    show Except.ok (t, (⟨[t], setDelete [t] t, 0⟩ : Queue)) = _
    rw [show setDelete [t] t = [] by simp [setDelete]]
  · simp [LilyQueue.has]

/-- C6: for every volume outside the validated bound, `setVolume` fails
synchronously with the validation error before any side effect — the
returned `Except.error` carries no state update, no `playerChangedVolume`
emission and no REST call, in both source variants (`min(1)` and
`min(0)`). -/
theorem claim_C6 (p : PlayerSt) (v : Int) :
    (v < 1 ∨ 100 < v → setVolumeA p v = .error "volume is invalid") ∧
    (v < 0 ∨ 100 < v → setVolumeB p v = .error "volume is invalid") := by
  constructor
  · intro h
    show (if v < 1 ∨ 100 < v then _ else _) = _
    rw [if_pos h]
  · intro h
    show (if v < 0 ∨ 100 < v then _ else _) = _
    rw [if_pos h]

/-- A throwaway player state for closed instantiations. -/
def pDefault : PlayerSt :=
  { connected := false, playing := false, paused := false, volume := 80,
    loop := .OFF, current := none, previous := [], autoPlay := false,
    autoLeave := false, queue := LilyQueue.mk 0, pendingFilterSync := false,
    destroyed := false }

/-- Closed instantiation of `claim_C6` at volume 101. -/
theorem claim_C6_witness :
    setVolumeA pDefault 101 = .error "volume is invalid" ∧
    setVolumeB pDefault 101 = .error "volume is invalid" :=
  ⟨(claim_C6 pDefault 101).1 (by decide), (claim_C6 pDefault 101).2 (by decide)⟩

/-- C10 (implicit): the player constructor coalesces every falsy
configured volume (`0` or absent) to the default 100 via
`config.volume || 100`, while the player manager's `create` validation
(`z.number().min(0).max(100)`) accepts 0 as a valid volume. -/
theorem claim_C10 (opts : ManagerOptions) (config : PlayerConfig) :
    (config.volume = some 0 ∨ config.volume = none →
      (mkPlayer opts config).volume = 100) ∧
    createVolumeValid (some 0) = true := by
  refine ⟨?_, rfl⟩
  intro h
  show jsOrInt config.volume 100 = 100
  rcases h with h | h <;> rw [h] <;> rfl

/-- Closed instantiation of `claim_C10`: a config with explicit volume 0
produces a player whose volume is 100. -/
theorem claim_C10_witness :
    (mkPlayer { previousInArray := false, queueStartIndex := none }
       { volume := some 0, loop := none, autoPlay := none, autoLeave := none }).volume
      = 100 ∧
    createVolumeValid (some 0) = true :=
  ⟨(claim_C10 { previousInArray := false, queueStartIndex := none }
      { volume := some 0, loop := none, autoPlay := none, autoLeave := none }).1
      (Or.inl rfl),
   (claim_C10 { previousInArray := false, queueStartIndex := none }
      { volume := some 0, loop := none, autoPlay := none, autoLeave := none }).2⟩

/-- C7: adding a node whose effective identifier (`identifier ?? host`)
already exists in the registry fails with an error; the `Except.error`
result carries no registry mutation and no `nodeCreate` emission. -/
theorem claim_C7 (cache : List String) (options : NodeOptions)
    (v : ValidatedNodeOptions) (hv : validateNode options = .ok v)
    (hdup : v.identifier.getD v.host ∈ cache) :
    ∃ msg, addNode cache options = .error msg := by
  by_cases hcap : 100 ≤ cache.length
  · exact ⟨"Cannot add more nodes. Maximum capacity (100) reached", by
      show (if 100 ≤ cache.length then _ else _) = _
      rw [if_pos hcap]⟩
  · refine ⟨"Node with identifier " ++ v.identifier.getD v.host ++ " already exists", ?_⟩
    show (if 100 ≤ cache.length then _ else _) = _
    rw [if_neg hcap, hv]
    show (if v.identifier.getD v.host ∈ cache then _ else _) = _
    rw [if_pos hdup]

/-- Valid options whose identifier is already registered. -/
def optsC7 : NodeOptions :=
  { host := "localhost", id := none, identifier := some "n1", port := 2333,
    password := none, retryDelay := none, retryAmount := none,
    regions := none, secure := none, sessionId := none }

/-- Closed instantiation of `claim_C7`: a registry already holding "n1"
rejects a valid configuration with identifier "n1". -/
theorem claim_C7_witness :
    ∃ msg, addNode ["n1"] optsC7 = .error msg :=
  claim_C7 ["n1"] optsC7
    { host := "localhost", identifier := some "n1", port := 2333,
      retryDelay := 5000, retryAmount := 3, secure := false }
    rfl (by decide)

/-- A player with an empty queue and auto-leave enabled, as a
track-end-recovery scenario. -/
def pC1 : PlayerSt :=
  { pDefault with autoLeave := true, current := some ⟨5⟩, playing := true }

/-- C1 as stated is false on the empty-queue side: on `loadFailed` with
an empty queue the handler only clears the queue and returns — here with
`autoLeave = true` no `queueEnd` is emitted and the player is not
destroyed. -/
theorem claim_C1_counterexample :
    pC1.autoLeave = true ∧
    LilyQueue.size pC1.queue = 0 ∧
    Eff.queueEnd ∉ (handleTrackEnd false pC1 "loadFailed" ⟨5⟩).2 ∧
    (handleTrackEnd false pC1 "loadFailed" ⟨5⟩).1.destroyed = false := by
  decide

/-- C1 (amended): on track end with reason `loadFailed`, a non-empty
queue triggers exactly one `play()` (one `playerTriggeredPlay`) and no
`queueEnd`; an empty queue is cleared and the handler returns without
emitting `queueEnd` and without destroying the player, regardless of
auto-leave. -/
theorem claim_C1_amended (prevArr : Bool) (p : PlayerSt) (pt : LilyTrack) :
    (LilyQueue.size p.queue ≠ 0 →
      ((handleTrackEnd prevArr p "loadFailed" pt).2.count Eff.playerTriggeredPlay = 1 ∧
       Eff.queueEnd ∉ (handleTrackEnd prevArr p "loadFailed" pt).2)) ∧
    (LilyQueue.size p.queue = 0 →
      ((handleTrackEnd prevArr p "loadFailed" pt).2 = [Eff.trackEnd] ∧
       (handleTrackEnd prevArr p "loadFailed" pt).1.queue = LilyQueue.clear p.queue ∧
       (handleTrackEnd prevArr p "loadFailed" pt).1.destroyed = p.destroyed)) := by
  constructor
  · intro h
    cases hq : p.queue.items with
    | nil =>
      exact absurd (show LilyQueue.size p.queue = 0 by simp [LilyQueue.size, hq]) h
    | cons a rest =>
      cases prevArr <;>
        simp [handleTrackEnd, handleFailedTrack, play, LilyQueue.shift, LilyQueue.size, hq]
  · intro h
    have hq : p.queue.items = [] := List.length_eq_zero.mp h
    cases prevArr <;>
      simp [handleTrackEnd, handleFailedTrack, play, LilyQueue.size, LilyQueue.clear, hq]

/-- Closed instantiation of `claim_C1_amended` on a one-track queue and
on an empty queue. -/
theorem claim_C1_witness :
    ((handleTrackEnd false
        { pDefault with queue := LilyQueue.add (LilyQueue.mk 0) ⟨7⟩ }
        "loadFailed" ⟨7⟩).2.count Eff.playerTriggeredPlay = 1 ∧
     Eff.queueEnd ∉ (handleTrackEnd false
        { pDefault with queue := LilyQueue.add (LilyQueue.mk 0) ⟨7⟩ }
        "loadFailed" ⟨7⟩).2) ∧
    (handleTrackEnd false pDefault "loadFailed" ⟨7⟩).2 = [Eff.trackEnd] :=
  ⟨(claim_C1_amended false
      { pDefault with queue := LilyQueue.add (LilyQueue.mk 0) ⟨7⟩ } ⟨7⟩).1 (by decide),
   ((claim_C1_amended false pDefault ⟨7⟩).2 (by decide)).1⟩

/-- From a settled state (DISCONNECTED, no live socket, no pending
timer), every event sequence keeps the node DISCONNECTED and emits
nothing. -/
theorem nodeSettled_run :
    ∀ (evs : List NodeEv) (n : NodeSt), n.state = NodeState.DISCONNECTED →
      n.socketActive = false → n.pendingReconnect = false →
      (run n evs).1.state = NodeState.DISCONNECTED ∧ (run n evs).2 = [] := by
  intro evs
  induction evs with
  | nil => intro n h1 _ _; exact ⟨h1, rfl⟩
  | cons e es ih =>
    intro n h1 h2 h3
    obtain ⟨st, ra, rm, pr, sa⟩ := n
    simp only at h1 h2 h3
    subst h1
    subst h2
    subst h3
    have hstep : step ⟨NodeState.DISCONNECTED, ra, rm, false, false⟩ e =
        (⟨NodeState.DISCONNECTED, ra, rm, false, false⟩, []) := by
      cases e <;> simp [step, LilyNode.destroy]
    show (run ⟨NodeState.DISCONNECTED, ra, rm, false, false⟩ (e :: es)).1.state = _ ∧ _
    simp only [run, hstep, List.nil_append]
    exact ih _ rfl rfl rfl

/-- C2: while the attempt counter is below `retryAmount`, a socket close
schedules a reconnect (emitting `nodeReconnect`), whose timer increments
the counter when it fires; once the counter has reached `retryAmount`, a
close settles the node into DISCONNECTED, emits no `nodeReconnect`, and
no later event ever changes the state or emits `nodeReconnect` again.
(`pendingReconnect = false` holds whenever the socket is live, since
both the timer firing and `open()` clear it.) -/
theorem claim_C2 (n : NodeSt) (hs : n.socketActive = true) :
    (n.reconnectAttempts < n.retryAmount →
      ((step n .socketClose).1.pendingReconnect = true ∧
       NodeEff.nodeReconnect ∈ (step n .socketClose).2 ∧
       (step (step n .socketClose).1 .timerFires).1.reconnectAttempts
         = n.reconnectAttempts + 1)) ∧
    (n.retryAmount ≤ n.reconnectAttempts → n.pendingReconnect = false →
      ((step n .socketClose).1.state = NodeState.DISCONNECTED ∧
       NodeEff.nodeReconnect ∉ (step n .socketClose).2 ∧
       ∀ evs, (run (step n .socketClose).1 evs).1.state = NodeState.DISCONNECTED ∧
              NodeEff.nodeReconnect ∉ (run (step n .socketClose).1 evs).2)) := by
  constructor
  · intro h
    by_cases hc : n.state = NodeState.CONNECTED <;>
      simp [step, hs, close, reconnect, timerFire, hc, h]
  · intro h hp
    have hno : ¬ n.reconnectAttempts < n.retryAmount := Nat.not_lt.mpr h
    have hclose : step n .socketClose =
        ({ n with state := NodeState.DISCONNECTED, socketActive := false },
         [NodeEff.nodeDisconnect]) := by
      by_cases hc : n.state = NodeState.CONNECTED <;>
        simp [step, hs, close, reconnect, hc, hno]
    refine ⟨by rw [hclose], by rw [hclose]; simp, ?_⟩
    intro evs
    have hrun := nodeSettled_run evs (step n .socketClose).1
      (by rw [hclose]) (by rw [hclose]) (by rw [hclose]; exact hp)
    exact ⟨hrun.1, by rw [hrun.2]; simp⟩

/-- A freshly connected node with retry budget left. -/
def nC2a : NodeSt :=
  { state := .CONNECTED, reconnectAttempts := 0, retryAmount := 3,
    pendingReconnect := false, socketActive := true }

/-- A connected node whose retry budget is exhausted. -/
def nC2b : NodeSt :=
  { state := .CONNECTED, reconnectAttempts := 3, retryAmount := 3,
    pendingReconnect := false, socketActive := true }

/-- Closed instantiation of `claim_C2`: a close below the limit schedules
and emits `nodeReconnect`; with the budget exhausted the node settles and
a subsequent timer/open pair neither revives it nor emits anything. -/
theorem claim_C2_witness :
    ((step nC2a .socketClose).1.pendingReconnect = true ∧
     NodeEff.nodeReconnect ∈ (step nC2a .socketClose).2 ∧
     (step (step nC2a .socketClose).1 .timerFires).1.reconnectAttempts = 1) ∧
    ((run (step nC2b .socketClose).1 [.timerFires, .socketOpen]).1.state
        = NodeState.DISCONNECTED ∧
     NodeEff.nodeReconnect ∉
       (run (step nC2b .socketClose).1 [.timerFires, .socketOpen]).2) :=
  ⟨(claim_C2 nC2a rfl).1 (by decide),
   ((claim_C2 nC2b rfl).2 (by decide) rfl).2.2 [.timerFires, .socketOpen]⟩

/-- A node state immediately after a close that scheduled a reconnect. -/
def nC8 : NodeSt :=
  { state := .DISCONNECTED, reconnectAttempts := 0, retryAmount := 3,
    pendingReconnect := true, socketActive := false }

/-- A player with a debounced filter sync scheduled. -/
def pC8 : PlayerSt := { pDefault with pendingFilterSync := true }

/-- C8 names the intended behavior, but the code misses it: `LilyNode.destroy`
never clears `reconnectTimeout` (only `open()` does), so a scheduled
reconnect survives `destroy()` and still fires — incrementing the counter
and opening a fresh socket; and `LilyPlayer.destroy` never calls
`LilyFilters.dispose`, so a pending debounced filter sync also survives,
even though `dispose()` itself does cancel it. -/
theorem claim_C8_bug :
    ((step nC8 .destroyCall).1.pendingReconnect = true ∧
     (run nC8 [.destroyCall, .timerFires]).1.reconnectAttempts = 1 ∧
     (run nC8 [.destroyCall, .timerFires]).1.socketActive = true) ∧
    ((LilyPlayer.destroy pC8).1.pendingFilterSync = true ∧
     (filtersDispose pC8).pendingFilterSync = false) := by
  decide

/-- `Map.set` followed by lookup of the same key finds the new entry. -/
theorem alSet_lookup (l : List (String × CacheEntry)) (k : String) (e : CacheEntry) :
    (alSet l k e).lookup k = some e := by
  induction l with
  | nil => simp [alSet, List.lookup]
  | cons p rest ih =>
    obtain ⟨k', e'⟩ := p
    by_cases h : k' = k
    · subst h
      simp [alSet, List.lookup]
    · have h2 : (k == k') = false := beq_eq_false_iff_ne.mpr (Ne.symm h)
      simp [alSet, List.lookup, h, h2, ih]

/-- An empty cache with a 10ms TTL and forced revalidation off. -/
def sC4 : MapSt := { cache := [], opts := { ttl := some 10, revalidate := false } }

/-- C4 as stated is false: `revalidate` guards on JS truthiness of the
cached value, not on presence. With a producer that resolved to the falsy
value `0`, a second `revalidate` within the TTL (here at 5ms of a 10ms
TTL) invokes the producer again (`producerCalls = 1`) and returns the
fresh value `7` instead of the cached `0`. -/
theorem claim_C4_counterexample :
    (revalidate sC4 "k" 0 0).producerCalls = 1 ∧
    (revalidate sC4 "k" 0 0).state.cache.lookup "k" =
      some { value := 0, expires := some 10, createdAt := 0 } ∧
    (revalidate (revalidate sC4 "k" 0 0).state "k" 7 5).producerCalls = 1 ∧
    (revalidate (revalidate sC4 "k" 0 0).state "k" 7 5).value = 7 := by
  decide

/-- C4 (amended): with a non-zero TTL configured, forced revalidation
disabled and a truthy cached value, a second `revalidate` within the TTL
returns the cached value with no producer call and no notification;
once the TTL has elapsed, the next `get` evicts the stale entry and
emits `cacheExpired` at that moment, and the next `revalidate` does the
same and then invokes the producer exactly once, returning its value. -/
theorem claim_C4_amended (s : MapSt) (key : String) (v w : Int) (t now0 now1 : Nat)
    (httl : s.opts.ttl = some t) (ht : t ≠ 0) (hrv : s.opts.revalidate = false)
    (hv : v ≠ 0) (hkey : s.cache.lookup key = none) :
    ((revalidate s key v now0).producerCalls = 1 ∧
     (revalidate s key v now0).value = v) ∧
    (now1 ≤ now0 + t →
      revalidate (revalidate s key v now0).state key w now1 =
        { value := v, state := (revalidate s key v now0).state,
          effs := [], producerCalls := 0 }) ∧
    (now0 + t < now1 →
      (mget (revalidate s key v now0).state key now1).1 = none ∧
      (mget (revalidate s key v now0).state key now1).2.2 = [CacheEff.cacheExpired key] ∧
      (revalidate (revalidate s key v now0).state key w now1).producerCalls = 1 ∧
      (revalidate (revalidate s key v now0).state key w now1).value = w ∧
      CacheEff.cacheExpired key ∈ (revalidate (revalidate s key v now0).state key w now1).effs) := by
  have h1 : revalidate s key v now0 =
      ⟨v, { s with cache := alSet s.cache key ⟨v, some (now0 + t), now0⟩ },
        [CacheEff.cacheSet key], 1⟩ := by
    simp [revalidate, mget, hkey, mset, createEntry, httl, ht, Option.orElse]
  have hlook : (revalidate s key v now0).state.cache.lookup key =
      some (⟨v, some (now0 + t), now0⟩ : CacheEntry) := by
    rw [h1]
    exact alSet_lookup s.cache key _
  have hexp : ∀ now', isExpired (⟨v, some (now0 + t), now0⟩ : CacheEntry) now'
      = decide (now0 + t < now') := by
    intro now'
    simp [isExpired]
    omega
  refine ⟨by rw [h1]; exact ⟨rfl, rfl⟩, ?_, ?_⟩
  · intro hin
    have hnotexp : isExpired (⟨v, some (now0 + t), now0⟩ : CacheEntry) now1
        = false := by
      rw [hexp]
      simpa using hin
    have hget : mget (revalidate s key v now0).state key now1 =
        (some v, (revalidate s key v now0).state, []) := by
      simp [mget, hlook, hnotexp]
    have hopts : (revalidate s key v now0).state.opts = s.opts := by rw [h1]
    generalize hst : (revalidate s key v now0).state = st at hget hopts ⊢
    simp only [revalidate, hget]
    simp [truthy, hv, hopts, hrv]
  · intro hout
    have hisexp : isExpired (⟨v, some (now0 + t), now0⟩ : CacheEntry) now1
        = true := by
      rw [hexp]
      simpa using hout
    have hget : mget (revalidate s key v now0).state key now1 =
        (none, { (revalidate s key v now0).state with
                   cache := alDelete (revalidate s key v now0).state.cache key },
         [CacheEff.cacheExpired key]) := by
      simp [mget, hlook, hisexp]
    refine ⟨by rw [hget], by rw [hget], ?_, ?_, ?_⟩ <;>
      · generalize hst : (revalidate s key v now0).state = st at hget ⊢
        simp only [revalidate, hget]
        try simp [mset]

/-- Closed instantiation of `claim_C4_amended` with TTL 10, value 1
cached at time 0: at time 10 the cached value is served with no producer
call; at time 11 the stale entry is evicted with `cacheExpired` and the
producer runs exactly once. -/
theorem claim_C4_witness :
    (revalidate (revalidate sC4 "k" 1 0).state "k" 2 10 =
      { value := 1, state := (revalidate sC4 "k" 1 0).state,
        effs := [], producerCalls := 0 }) ∧
    ((revalidate (revalidate sC4 "k" 1 0).state "k" 2 11).producerCalls = 1 ∧
     CacheEff.cacheExpired "k" ∈ (revalidate (revalidate sC4 "k" 1 0).state "k" 2 11).effs) :=
  ⟨(claim_C4_amended sC4 "k" 1 2 10 0 10 rfl (by decide) rfl (by decide) rfl).2.1
     (by decide),
   ⟨((claim_C4_amended sC4 "k" 1 2 10 0 11 rfl (by decide) rfl (by decide) rfl).2.2
      (by decide)).2.2.1,
    ((claim_C4_amended sC4 "k" 1 2 10 0 11 rfl (by decide) rfl (by decide) rfl).2.2
      (by decide)).2.2.2.2⟩⟩

end Claims

end LilyLink
